import Mathlib

/-!
Shallow embedding of the trinogateway Terraform provider
(paragor/terraform-provider-trinogateway): the gateway HTTP client
(internal/trinogatewayclient/client.go) and the backend resource
controller plus provider configuration (internal/provider).

Strings and response bodies are modelled as lists of characters
(`Str`); the repository only handles ASCII protocol data, so bytes are
modelled one character per byte.  Machine-level HTTP transport is
abstracted: each client operation is split into the request it builds
and the pure handling of a received response, and the controller
operations take the client call's result as an argument.
-/

/-- Strings / byte sequences, one `Char` per byte. -/
abbrev Str := List Char

/-! ## Gateway client: internal/trinogatewayclient/client.go -/

/-- `maxResponseBodyLogSize` constant (client.go line 17). -/
def maxResponseBodyLogSize : Nat := 1024

/-- The `Backend` struct (client.go lines 20-26).  JSON keys are
`name`, `proxyTo`, `routingGroup`, `active`, `externalUrl`. -/
structure Backend where
  name : Str
  proxyTo : Str
  routingGroup : Str
  active : Bool
  externalUrl : Str
deriving DecidableEq

/-- The `Auth` struct of the client (client.go lines 28-31). -/
structure Auth where
  login : Str
  password : Str
deriving DecidableEq

/-- An outbound HTTP request as this client builds one: method, full URL,
body, and the optional basic-auth credentials set by `addAuth`. -/
structure HttpRequest where
  method : Str
  url : Str
  body : Str
  basicAuth : Option Auth
deriving DecidableEq

/-- An HTTP response as the client consumes one: status code and the
fully read body (`io.ReadAll`). -/
structure HttpResponse where
  statusCode : Nat
  body : Str
deriving DecidableEq

/-- The `trinoGatewayClientHttpImpl` struct (client.go lines 47-51): the
configured endpoint and optional credentials.  The embedded `http.Client`
is the abstracted transport. -/
structure trinoGatewayClientHttpImpl where
  endpoint : Str
  auth : Option Auth
deriving DecidableEq

/-- `strings.TrimSuffix` from the Go standard library: remove one copy of
`suffix` from the end of `s` when present, otherwise return `s`. -/
def stringsTrimSuffix (s suffix : Str) : Str :=
  if suffix.isSuffixOf s then s.take (s.length - suffix.length) else s

/-- `getFullUrl` (client.go lines 53-55). -/
def getFullUrl (tg : trinoGatewayClientHttpImpl) (subpath : Str) : Str :=
  stringsTrimSuffix tg.endpoint (("/").toList) ++ subpath

/-- `addAuth` (client.go lines 57-61): set basic auth on the request iff
credentials were configured. -/
def addAuth (tg : trinoGatewayClientHttpImpl) (request : HttpRequest) : HttpRequest :=
  match tg.auth with
  | some a => { request with basicAuth := some a }
  | none => request

/-- The non-200 error message shared verbatim by all three operations
(client.go lines 85-91, 113-119, 144-150):
`"bad http response code: %d, body: %s"` where the body is truncated to
`min(len(responseBody), maxResponseBodyLogSize)` bytes. -/
def badHttpResponseMsg (response : HttpResponse) : Str :=
  (("bad http response code: ").toList) ++ Nat.toDigits 10 response.statusCode
    ++ ((", body: ").toList)
    ++ response.body.take (min response.body.length maxResponseBodyLogSize)

/-- Response handling of `AddOrUpdateBackend` (client.go lines 85-92):
any status other than 200 is an error, otherwise success (the 200 body is
ignored). -/
def addOrUpdateBackendHandle (response : HttpResponse) : Except Str Unit :=
  if response.statusCode ≠ 200 then .error (badHttpResponseMsg response) else .ok ()

/-- The request built by `DeleteBackend` (client.go lines 95-104): a POST
to the fixed delete path whose body is the raw backend name,
`strings.NewReader(name)`, with optional basic auth. -/
def deleteBackendRequest (tg : trinoGatewayClientHttpImpl) (name : Str) : HttpRequest :=
  addAuth tg
    { method := (("POST").toList)
      url := getFullUrl tg (("/gateway/backend/modify/delete").toList)
      body := name
      basicAuth := none }

/-- Response handling of `DeleteBackend` (client.go lines 113-120). -/
def deleteBackendHandle (response : HttpResponse) : Except Str Unit :=
  if response.statusCode ≠ 200 then .error (badHttpResponseMsg response) else .ok ()

/-- The request built by `AddOrUpdateBackend` (client.go lines 68-76): a
POST of the marshalled entity to the entity path with the
`entityType=GATEWAY_BACKEND` query parameter.  The marshalled JSON bytes
are taken as an argument. -/
def addOrUpdateBackendRequest (tg : trinoGatewayClientHttpImpl) (requestBody : Str) :
    HttpRequest :=
  addAuth tg
    { method := (("POST").toList)
      url := getFullUrl tg (("/entity?entityType=GATEWAY_BACKEND").toList)
      body := requestBody
      basicAuth := none }

/-- The request built by `GetAllBackends` (client.go lines 124-132): a GET
to the fixed listing path with no body. -/
def getAllBackendsRequest (tg : trinoGatewayClientHttpImpl) : HttpRequest :=
  addAuth tg
    { method := (("GET").toList)
      url := getFullUrl tg (("/entity/GATEWAY_BACKEND").toList)
      body := []
      basicAuth := none }

/-! ## encoding/json, as used by `GetAllBackends` on the `[]*Backend` target

The list response body is decoded with `json.Unmarshal(responseBody,
&allBackends)` where `allBackends := []*Backend{}`.  The decoder below
models the standard library's behaviour on this target type:

* one JSON value, optional surrounding whitespace, trailing data is an
  error;
* a top-level JSON `null` leaves the destination untouched — the
  initialized empty slice — and reports no error (documented stdlib
  behaviour for `null` into a pointer/slice/map);
* an array is decoded element by element; each element must be an object;
  within an object, unknown keys are ignored, a later duplicate key wins,
  a `null` field value leaves the field at its zero value, and a field
  value of the wrong type is an error.

Model simplifications that no stated theorem depends on: `\uXXXX` string
escapes and escape validation are not modelled (the escaped character is
taken literally), number syntax is recognised loosely, error message
texts are representative rather than byte-identical to Go's, and a
`null` array element — which Go would admit as a nil `*Backend` later
dereferenced by the caller — is modelled as a decoding error. -/

/-- JSON values. -/
inductive Jval where
  | jnull
  | jbool (b : Bool)
  | jnum (lit : Str)
  | jstr (s : Str)
  | jarr (elems : List Jval)
  | jobj (fields : List (Str × Jval))

/-- JSON insignificant whitespace. -/
def isJsonWs (c : Char) : Bool :=
  c == ' ' || c == '\t' || c == '\n' || c == '\r'

/-- Skip insignificant whitespace. -/
def skipWs (s : Str) : Str := s.dropWhile isJsonWs

/-- Translation of a character following a backslash in a JSON string. -/
def unescapeChar (c : Char) : Char :=
  if c == 'n' then '\n'
  else if c == 't' then '\t'
  else if c == 'r' then '\r'
  else if c == 'b' then Char.ofNat 8
  else if c == 'f' then Char.ofNat 12
  else c

/-- Parse the remainder of a JSON string after its opening quote; returns
the decoded characters and the input after the closing quote. -/
def parseStringRest : Str → Except Str (Str × Str)
  | [] => .error (("unexpected end of JSON input").toList)
  | c :: rest =>
    if c == '"' then .ok ([], rest)
    else if c == '\\' then
      match rest with
      | [] => .error (("unexpected end of JSON input").toList)
      | e :: rest2 =>
        match parseStringRest rest2 with
        | .error msg => .error msg
        | .ok (tail, rem) => .ok (unescapeChar e :: tail, rem)
    else
      match parseStringRest rest with
      | .error msg => .error msg
      | .ok (tail, rem) => .ok (c :: tail, rem)

/-- Characters admitted in a number literal. -/
def isNumChar (c : Char) : Bool :=
  c.isDigit || c == '-' || c == '+' || c == '.' || c == 'e' || c == 'E'

mutual

/-- Parse one JSON value; returns it and the remaining input.  The fuel
argument bounds recursion depth; `parseJson` supplies enough for any
input. -/
def parseJval : Nat → Str → Except Str (Jval × Str)
  | 0, _ => .error (("json parser out of fuel").toList)
  | fuel + 1, s =>
    match skipWs s with
    | [] => .error (("unexpected end of JSON input").toList)
    | c :: rest =>
      if c == 'n' then
        if rest.take 3 = (("ull").toList) then .ok (.jnull, rest.drop 3)
        else .error (("invalid character in literal null").toList)
      else if c == 't' then
        if rest.take 3 = (("rue").toList) then .ok (.jbool true, rest.drop 3)
        else .error (("invalid character in literal true").toList)
      else if c == 'f' then
        if rest.take 4 = (("alse").toList) then .ok (.jbool false, rest.drop 4)
        else .error (("invalid character in literal false").toList)
      else if c == '"' then
        match parseStringRest rest with
        | .error msg => .error msg
        | .ok (str, rem) => .ok (.jstr str, rem)
      else if c == '[' then
        match skipWs rest with
        | ']' :: rem => .ok (.jarr [], rem)
        | rest2 =>
          match parseArrayElems fuel rest2 with
          | .error msg => .error msg
          | .ok (elems, rem) => .ok (.jarr elems, rem)
      else if c == '{' then
        match skipWs rest with
        | '}' :: rem => .ok (.jobj [], rem)
        | rest2 =>
          match parseObjFields fuel rest2 with
          | .error msg => .error msg
          | .ok (fields, rem) => .ok (.jobj fields, rem)
      else if c.isDigit || c == '-' then
        .ok (.jnum ((c :: rest).takeWhile isNumChar), (c :: rest).dropWhile isNumChar)
      else .error (("invalid character looking for beginning of value").toList)

/-- Parse the elements of a non-empty JSON array up to and including the
closing bracket. -/
def parseArrayElems : Nat → Str → Except Str (List Jval × Str)
  | 0, _ => .error (("json parser out of fuel").toList)
  | fuel + 1, s =>
    match parseJval fuel s with
    | .error msg => .error msg
    | .ok (v, rem) =>
      match skipWs rem with
      | ',' :: rem2 =>
        match parseArrayElems fuel rem2 with
        | .error msg => .error msg
        | .ok (vs, rem3) => .ok (v :: vs, rem3)
      | ']' :: rem2 => .ok ([v], rem2)
      | _ => .error (("invalid character after array element").toList)

/-- Parse the fields of a non-empty JSON object up to and including the
closing brace. -/
def parseObjFields : Nat → Str → Except Str (List (Str × Jval) × Str)
  | 0, _ => .error (("json parser out of fuel").toList)
  | fuel + 1, s =>
    match skipWs s with
    | '"' :: rest =>
      match parseStringRest rest with
      | .error msg => .error msg
      | .ok (key, rem) =>
        match skipWs rem with
        | ':' :: rem2 =>
          match parseJval fuel rem2 with
          | .error msg => .error msg
          | .ok (v, rem3) =>
            match skipWs rem3 with
            | ',' :: rem4 =>
              match parseObjFields fuel rem4 with
              | .error msg => .error msg
              | .ok (fields, rem5) => .ok ((key, v) :: fields, rem5)
            | '}' :: rem4 => .ok ([(key, v)], rem4)
            | _ => .error (("invalid character after object field").toList)
        | _ => .error (("invalid character after object key").toList)
    | _ => .error (("invalid character looking for object key").toList)

end

/-- Parse a complete JSON document: one value with optional surrounding
whitespace; anything further is an error. -/
def parseJson (s : Str) : Except Str Jval :=
  match parseJval (s.length + 1) s with
  | .error msg => .error msg
  | .ok (v, rem) =>
    if skipWs rem = [] then .ok v
    else .error (("invalid character after top-level value").toList)

/-- The zero value of the `Backend` struct, as `json.Unmarshal` starts
from when decoding an element. -/
def zeroBackend : Backend :=
  { name := [], proxyTo := [], routingGroup := [], active := false, externalUrl := [] }

/-- Decode one object field into the `Backend` under construction: the
four string fields and the bool field by JSON key, unknown keys ignored,
`null` leaves the field untouched, wrong type is an error. -/
def backendSetField (b : Backend) (key : Str) (v : Jval) : Except Str Backend :=
  if key = (("name").toList) then
    match v with
    | .jstr s => .ok { b with name := s }
    | .jnull => .ok b
    | _ => .error (("cannot unmarshal value into field name of type string").toList)
  else if key = (("proxyTo").toList) then
    match v with
    | .jstr s => .ok { b with proxyTo := s }
    | .jnull => .ok b
    | _ => .error (("cannot unmarshal value into field proxyTo of type string").toList)
  else if key = (("routingGroup").toList) then
    match v with
    | .jstr s => .ok { b with routingGroup := s }
    | .jnull => .ok b
    | _ => .error (("cannot unmarshal value into field routingGroup of type string").toList)
  else if key = (("active").toList) then
    match v with
    | .jbool bv => .ok { b with active := bv }
    | .jnull => .ok b
    | _ => .error (("cannot unmarshal value into field active of type bool").toList)
  else if key = (("externalUrl").toList) then
    match v with
    | .jstr s => .ok { b with externalUrl := s }
    | .jnull => .ok b
    | _ => .error (("cannot unmarshal value into field externalUrl of type string").toList)
  else .ok b

/-- Decode one array element into a `Backend`: it must be an object. -/
def jvalToBackend : Jval → Except Str Backend
  | .jobj fields => fields.foldlM (fun b kv => backendSetField b kv.1 kv.2) zeroBackend
  | _ => .error (("cannot unmarshal value into Go value of type Backend").toList)

/-- `json.Unmarshal(responseBody, &allBackends)` with
`allBackends := []*Backend{}` (client.go lines 152-153): a top-level
`null` reports success and leaves the empty slice, an array is decoded
elementwise, and any other top-level value is an error. -/
def unmarshalBackends (body : Str) : Except Str (List Backend) :=
  match parseJson body with
  | .error msg => .error msg
  | .ok .jnull => .ok []
  | .ok (.jarr elems) => elems.mapM jvalToBackend
  | .ok _ => .error (("cannot unmarshal value into Go value of type list of Backend").toList)

/-- `GetAllBackends` response handling (client.go lines 144-161): non-200
is the shared status error; a 200 body is JSON-decoded, and a decoding
failure is wrapped as `"cant unmarshal response: %w, body: %s"` with the
body truncated to 1024 bytes. -/
def getAllBackends (response : HttpResponse) : Except Str (List Backend) :=
  if response.statusCode ≠ 200 then .error (badHttpResponseMsg response)
  else
    match unmarshalBackends response.body with
    | .error msg =>
      .error ((("cant unmarshal response: ").toList) ++ msg ++ ((", body: ").toList)
        ++ response.body.take (min response.body.length maxResponseBodyLogSize))
    | .ok allBackends => .ok allBackends

/-! ## Terraform value types used by the provider

`types.String` / `types.Bool` of the plugin framework: a value is null,
unknown, or known.  `ValueString` / `ValueBool` return the zero value on
null or unknown; the zero value of the whole type is null. -/

/-- `types.String`. -/
inductive TfString where
  | null
  | unknown
  | value (s : Str)
deriving DecidableEq

/-- `types.String.ValueString()`. -/
def TfString.ValueString : TfString → Str
  | .value s => s
  | _ => []

/-- `types.String.IsNull()`. -/
def TfString.IsNull : TfString → Bool
  | .null => true
  | _ => false

/-- `types.String.IsUnknown()`. -/
def TfString.IsUnknown : TfString → Bool
  | .unknown => true
  | _ => false

/-- `types.StringValue(s)`. -/
def TfString.StringValue (s : Str) : TfString := .value s

/-- `types.Bool`. -/
inductive TfBool where
  | null
  | unknown
  | value (b : Bool)
deriving DecidableEq

/-- `types.Bool.ValueBool()`. -/
def TfBool.ValueBool : TfBool → Bool
  | .value b => b
  | _ => false

/-- `types.BoolValue(b)`. -/
def TfBool.BoolValue (b : Bool) : TfBool := .value b

/-! ## Backend resource controller (internal/provider, BackendResource) -/

/-- `BackendResourceModel` (resource file lines 32-39). -/
structure BackendResourceModel where
  id : TfString
  name : TfString
  proxyTo : TfString
  active : TfBool
  routingGroup : TfString
  externalUrl : TfString
deriving DecidableEq

/-- The zero value of `BackendResourceModel` (`var data
BackendResourceModel`): every framework value starts null. -/
def emptyBackendResourceModel : BackendResourceModel :=
  { id := .null, name := .null, proxyTo := .null, active := .null,
    routingGroup := .null, externalUrl := .null }

/-- A diagnostic as added by `resp.Diagnostics.AddError(title, detail)`. -/
abbrev Diagnostic := Str × Str

/-- `backendDomainToTfModel` (resource file lines 246-252): overwrite the
five tracked attributes from the domain record; `id` is untouched. -/
def backendDomainToTfModel (domainmodel : Backend) (tfmodel : BackendResourceModel) :
    BackendResourceModel :=
  { tfmodel with
    active := TfBool.BoolValue domainmodel.active
    proxyTo := TfString.StringValue domainmodel.proxyTo
    name := TfString.StringValue domainmodel.name
    routingGroup := TfString.StringValue domainmodel.routingGroup
    externalUrl := TfString.StringValue domainmodel.externalUrl }

/-- The name-matching scan shared by `Read` (lines 156-161) and
`ImportState` (lines 231-236): iterate over the list, remembering every
entry whose name equals the searched one; the variable keeps the last
match. -/
def scanForName (backends : List Backend) (name : Str) : Option Backend :=
  backends.foldl
    (fun foundBackend backend =>
      if backend.name = name then some backend else foundBackend)
    none

/-- The entity construction shared textually by `Create` (lines 116-125):
build the `Backend` from the plan (its `ExternalUrl` field left at the
zero value), default a null or unknown `external_url` to `proxy_to` in
the plan data, then copy the resulting `external_url` into the entity.
Returns the entity sent and the plan data as mutated. -/
def backendResourceCreateBuild (data : BackendResourceModel) :
    Backend × BackendResourceModel :=
  let backend : Backend :=
    { name := data.name.ValueString
      proxyTo := data.proxyTo.ValueString
      routingGroup := data.routingGroup.ValueString
      active := data.active.ValueBool
      externalUrl := [] }
  let data :=
    if data.externalUrl.IsNull || data.externalUrl.IsUnknown then
      { data with externalUrl := TfString.StringValue (data.proxyTo.ValueString) }
    else data
  ({ backend with externalUrl := data.externalUrl.ValueString }, data)

/-- The identical entity construction in `Update` (lines 183-192). -/
def backendResourceUpdateBuild (data : BackendResourceModel) :
    Backend × BackendResourceModel :=
  let backend : Backend :=
    { name := data.name.ValueString
      proxyTo := data.proxyTo.ValueString
      routingGroup := data.routingGroup.ValueString
      active := data.active.ValueBool
      externalUrl := [] }
  let data :=
    if data.externalUrl.IsNull || data.externalUrl.IsUnknown then
      { data with externalUrl := TfString.StringValue (data.proxyTo.ValueString) }
    else data
  ({ backend with externalUrl := data.externalUrl.ValueString }, data)

/-- `BackendResource.Create` (lines 107-138), after the plan has been
read into `data`.  `addOrUpdateBackend` is the client call on the entity
built; on failure the `"Client Error"` diagnostic is added and no state
set, on success `id` is set to the name and the data stored as state. -/
def backendResourceCreate (plan : BackendResourceModel)
    (addOrUpdateBackend : Backend → Except Str Unit) :
    Except Diagnostic BackendResourceModel :=
  let p := backendResourceCreateBuild plan
  match addOrUpdateBackend p.1 with
  | .error e =>
    .error ((("Client Error").toList),
      (("Unable to add backend, got error: ").toList) ++ e)
  | .ok _ => .ok { p.2 with id := TfString.StringValue (p.2.name.ValueString) }

/-- `BackendResource.Update` (lines 173-204): same construction and call,
then the data is stored as state unchanged (no `id` assignment). -/
def backendResourceUpdate (plan : BackendResourceModel)
    (addOrUpdateBackend : Backend → Except Str Unit) :
    Except Diagnostic BackendResourceModel :=
  let p := backendResourceUpdateBuild plan
  match addOrUpdateBackend p.1 with
  | .error e =>
    .error ((("Client Error").toList),
      (("Unable to update backend, got error: ").toList) ++ e)
  | .ok _ => .ok p.2

/-- Outcome of `BackendResource.Read`. -/
inductive ReadOutcome where
  | clientError (diag : Diagnostic)
  | removeResource
  | setState (m : BackendResourceModel)
deriving DecidableEq

/-- `BackendResource.Read` (lines 140-171), after the prior state has
been read into `data`; `getAll` is the list call's result.  On list
failure a diagnostic; if no entry matches the tracked name the resource
is removed from state; otherwise all tracked attributes are refreshed
from the found entry. -/
def backendResourceRead (data : BackendResourceModel)
    (getAll : Except Str (List Backend)) : ReadOutcome :=
  match getAll with
  | .error e =>
    .clientError ((("Client Error").toList),
      (("Unable to list backends, got error: ").toList) ++ e)
  | .ok backends =>
    match scanForName backends (data.name.ValueString) with
    | none => .removeResource
    | some foundBackend => .setState (backendDomainToTfModel foundBackend data)

/-- `BackendResource.Delete` (lines 206-220): call the client with the
tracked name; a failure becomes a diagnostic. -/
def backendResourceDelete (data : BackendResourceModel)
    (deleteBackend : Str → Except Str Unit) : Except Diagnostic Unit :=
  match deleteBackend (data.name.ValueString) with
  | .error e =>
    .error ((("Client Error").toList),
      (("Unable to delete backend, got error: ").toList) ++ e)
  | .ok _ => .ok ()

/-- Outcome of `BackendResource.ImportState`: the diagnostics added, a
flag recording that execution panicked, and the state set (when
execution reached `resp.State.Set`). -/
structure ImportOutcome where
  diagnostics : List Diagnostic
  panicked : Bool
  newState : Option BackendResourceModel
deriving DecidableEq

/-- `BackendResource.ImportState` (lines 222-244).  `reqId` is the
given identifier, taken as the backend name.  When no entry matches,
the code adds the `"Backend not found"` diagnostic but does not return:
it falls through to `backendDomainToTfModel(foundBackend, &data)` with
`foundBackend == nil`, whose field accesses dereference the nil pointer
and panic — recorded here as `panicked := true` with no state set.  When
a match exists the state is populated from the found record into the
zero-valued `data`. -/
def backendResourceImportState (reqId : Str)
    (getAll : Except Str (List Backend)) : ImportOutcome :=
  match getAll with
  | .error e =>
    { diagnostics := [((("Client Error").toList),
        (("Unable to list backends, got error: ").toList) ++ e)]
      panicked := false
      newState := none }
  | .ok backends =>
    match scanForName backends reqId with
    | none =>
      { diagnostics := [((("Backend not found").toList), (("Backend not found").toList))]
        panicked := true
        newState := none }
    | some foundBackend =>
      { diagnostics := []
        panicked := false
        newState := some (backendDomainToTfModel foundBackend emptyBackendResourceModel) }

/-! ## Provider configuration (internal/provider/provider.go) -/

/-- `TrinoGatewayProviderModel` (provider.go lines 30-34). -/
structure TrinoGatewayProviderModel where
  endpoint : TfString
  login : TfString
  password : TfString
deriving DecidableEq

/-- `TrinoGatewayProvider.Configure` (provider.go lines 62-107), after
the configuration has been read into `data`: a null endpoint is a
diagnostic; a set login with a null password is a diagnostic; otherwise
the client is built with the endpoint and, only when login is set, basic
auth credentials (`NewTrinoGatewayClient` never fails). -/
def providerConfigure (data : TrinoGatewayProviderModel) :
    Except Diagnostic trinoGatewayClientHttpImpl :=
  if data.endpoint.IsNull then
    .error ((("Endpoint for trino gateway client is not specify").toList),
      (("Cant configure trino gateway client: endpoint is not specified").toList))
  else if data.login.IsNull then
    .ok { endpoint := data.endpoint.ValueString, auth := none }
  else if data.password.IsNull then
    .error ((("Cant configure trino gateway client auth").toList),
      (("Cant configure trino gateway client auth: if login set, password should be set too").toList))
  else
    .ok { endpoint := data.endpoint.ValueString,
          auth := some { login := data.login.ValueString,
                         password := data.password.ValueString } }

/-! ## Helper lemmas about the name-matching scan -/

lemma scanForName_concat (bs : List Backend) (b : Backend) (name : Str) :
    scanForName (bs ++ [b]) name =
      if b.name = name then some b else scanForName bs name := by
  simp [scanForName, List.foldl_append]

lemma scanForName_eq_getLast (bs : List Backend) (name : Str) :
    scanForName bs name =
      (bs.filter (fun b => decide (b.name = name))).getLast? := by
  induction bs using List.reverseRecOn with
  | nil => rfl
  | append_singleton l a ih =>
    rw [scanForName_concat, List.filter_append]
    by_cases h : a.name = name
    · simp [h]
    · simp [h, ih]

lemma scanForName_eq_none_iff (bs : List Backend) (name : Str) :
    scanForName bs name = none ↔ ∀ b ∈ bs, b.name ≠ name := by
  rw [scanForName_eq_getLast, List.getLast?_eq_none_iff, List.filter_eq_nil_iff]
  simp

lemma scanForName_mem {bs : List Backend} {name : Str} {b : Backend}
    (h : scanForName bs name = some b) : b ∈ bs ∧ b.name = name := by
  rw [scanForName_eq_getLast] at h
  have hmem := List.mem_of_getLast?_eq_some h
  have := List.mem_filter.mp hmem
  simpa using this

/-! ## Claim C1 -/

/-- C1: with an import identifier absent from the gateway's list, the
code adds the "Backend not found" diagnostic but, missing a return
statement, falls through and dereferences the nil found pointer: the
operation crashes instead of merely reporting the error, and no state is
populated.  Evaluated at the failing input: identifier "trino-1" against
the empty backend list. -/
theorem c1_import_absent_reports_error_but_panics :
    (backendResourceImportState (("trino-1").toList) (.ok [])).diagnostics =
      [((("Backend not found").toList), (("Backend not found").toList))] ∧
    (backendResourceImportState (("trino-1").toList) (.ok [])).panicked = true ∧
    (backendResourceImportState (("trino-1").toList) (.ok [])).newState = none :=
  ⟨rfl, rfl, rfl⟩

/-! ## Claim C4 -/

/-- C4: Read on a successful list with no entry matching the tracked
name removes the resource from state with no error; on a list with a
matching entry, it overwrites all five tracked attributes from the found
record. -/
theorem c4_read_removes_or_refreshes (data : BackendResourceModel)
    (backends : List Backend) :
    ((∀ b ∈ backends, b.name ≠ data.name.ValueString) →
        backendResourceRead data (.ok backends) = .removeResource) ∧
    ((∃ b ∈ backends, b.name = data.name.ValueString) →
      ∃ found, found ∈ backends ∧ found.name = data.name.ValueString ∧
        backendResourceRead data (.ok backends) =
          .setState (backendDomainToTfModel found data) ∧
        (backendDomainToTfModel found data).name = TfString.StringValue found.name ∧
        (backendDomainToTfModel found data).proxyTo = TfString.StringValue found.proxyTo ∧
        (backendDomainToTfModel found data).routingGroup =
          TfString.StringValue found.routingGroup ∧
        (backendDomainToTfModel found data).active = TfBool.BoolValue found.active ∧
        (backendDomainToTfModel found data).externalUrl =
          TfString.StringValue found.externalUrl) := by
  constructor
  · intro h
    have hnone : scanForName backends (data.name.ValueString) = none :=
      (scanForName_eq_none_iff _ _).mpr h
    simp [backendResourceRead, hnone]
  · rintro ⟨b, hb, hname⟩
    cases hscan : scanForName backends (data.name.ValueString) with
    | none => exact absurd hname ((scanForName_eq_none_iff _ _).mp hscan b hb)
    | some found =>
      obtain ⟨hmem, hfname⟩ := scanForName_mem hscan
      exact ⟨found, hmem, hfname, by simp [backendResourceRead, hscan],
        rfl, rfl, rfl, rfl, rfl⟩

/-- A state tracking the name "trino-1". -/
def c4State : BackendResourceModel :=
  { emptyBackendResourceModel with name := TfString.value (("trino-1").toList) }

/-- C4 witness: a gateway list without the tracked name makes Read remove
the resource. -/
theorem c4_witness : backendResourceRead c4State (.ok []) = .removeResource :=
  (c4_read_removes_or_refreshes c4State []).1 (by simp)

/-! ## Claim C5 -/

/-- C5: when two or more entries carry the searched name, the scan used
by Read and Import returns the last matching entry in iteration order;
duplicates are not an error: Read still refreshes state and Import
still imports with no diagnostics and no crash. -/
theorem c5_duplicate_names_last_match_wins (backends : List Backend) (name : Str)
    (h : 2 ≤ (backends.filter (fun b => decide (b.name = name))).length) :
    scanForName backends name =
      (backends.filter (fun b => decide (b.name = name))).getLast? ∧
    (∃ found, scanForName backends name = some found ∧ found.name = name) ∧
    (∀ data : BackendResourceModel, data.name = TfString.value name →
      ∃ m, backendResourceRead data (.ok backends) = .setState m) ∧
    (backendResourceImportState name (.ok backends)).diagnostics = [] ∧
    (backendResourceImportState name (.ok backends)).panicked = false := by
  have hne : backends.filter (fun b => decide (b.name = name)) ≠ [] := by
    intro hnil
    rw [hnil] at h
    simp at h
  obtain ⟨found, hfound⟩ : ∃ found, scanForName backends name = some found := by
    rw [scanForName_eq_getLast]
    cases hf : (backends.filter (fun b => decide (b.name = name))).getLast? with
    | none => exact absurd (List.getLast?_eq_none_iff.mp hf) hne
    | some x => exact ⟨x, rfl⟩
  refine ⟨scanForName_eq_getLast _ _, ⟨found, hfound, (scanForName_mem hfound).2⟩,
    ?_, ?_, ?_⟩
  · intro data hdata
    refine ⟨backendDomainToTfModel found data, ?_⟩
    simp [backendResourceRead, hdata, TfString.ValueString, hfound]
  · simp [backendResourceImportState, hfound]
  · simp [backendResourceImportState, hfound]

/-- First backend named "dup". -/
def c5BackendA : Backend :=
  { name := (("dup").toList), proxyTo := (("p1").toList),
    routingGroup := (("g").toList), active := true,
    externalUrl := (("e1").toList) }

/-- Second backend named "dup", differing in every other attribute. -/
def c5BackendB : Backend :=
  { name := (("dup").toList), proxyTo := (("p2").toList),
    routingGroup := (("h").toList), active := false,
    externalUrl := (("e2").toList) }

/-- C5 witness: with two entries named "dup" the scan picks the second
(last) one and Import raises no diagnostics and does not panic. -/
theorem c5_witness :
    scanForName [c5BackendA, c5BackendB] (("dup").toList) = some c5BackendB ∧
    (backendResourceImportState (("dup").toList)
      (.ok [c5BackendA, c5BackendB])).panicked = false :=
  ⟨((c5_duplicate_names_last_match_wins [c5BackendA, c5BackendB] (("dup").toList)
      (by decide)).1).trans (by decide),
   (c5_duplicate_names_last_match_wins [c5BackendA, c5BackendB] (("dup").toList)
      (by decide)).2.2.2.2⟩

/-! ## Claim C2 -/

lemma createBuild_defaulted (plan : BackendResourceModel)
    (h : (plan.externalUrl.IsNull || plan.externalUrl.IsUnknown) = true) :
    (backendResourceCreateBuild plan).1.externalUrl = plan.proxyTo.ValueString ∧
    (backendResourceCreateBuild plan).2.externalUrl =
      TfString.StringValue (plan.proxyTo.ValueString) := by
  simp [backendResourceCreateBuild, h, TfString.StringValue, TfString.ValueString]

lemma updateBuild_defaulted (plan : BackendResourceModel)
    (h : (plan.externalUrl.IsNull || plan.externalUrl.IsUnknown) = true) :
    (backendResourceUpdateBuild plan).1.externalUrl = plan.proxyTo.ValueString ∧
    (backendResourceUpdateBuild plan).2.externalUrl =
      TfString.StringValue (plan.proxyTo.ValueString) := by
  simp [backendResourceUpdateBuild, h, TfString.StringValue, TfString.ValueString]

lemma backendResourceCreate_ok {plan : BackendResourceModel}
    {f : Backend → Except Str Unit} {m : BackendResourceModel}
    (hm : backendResourceCreate plan f = .ok m) :
    m.externalUrl = (backendResourceCreateBuild plan).2.externalUrl := by
  cases hf : f (backendResourceCreateBuild plan).1 with
  | error e =>
    simp only [backendResourceCreate, hf] at hm
    exact absurd hm (by simp)
  | ok u =>
    simp only [backendResourceCreate, hf, Except.ok.injEq] at hm
    rw [← hm]

lemma backendResourceUpdate_ok {plan : BackendResourceModel}
    {f : Backend → Except Str Unit} {m : BackendResourceModel}
    (hm : backendResourceUpdate plan f = .ok m) :
    m.externalUrl = (backendResourceUpdateBuild plan).2.externalUrl := by
  cases hf : f (backendResourceUpdateBuild plan).1 with
  | error e =>
    simp only [backendResourceUpdate, hf] at hm
    exact absurd hm (by simp)
  | ok u =>
    simp only [backendResourceUpdate, hf, Except.ok.injEq] at hm
    rw [← hm]

/-- C2: when the planned `external_url` is null or unknown, both Create
and Update send an entity whose `externalUrl` equals `proxy_to`, and any
state they store tracks `external_url` as that `proxy_to` value; when
`external_url` is a known value, it is transmitted unchanged. -/
theorem c2_external_url_defaults_to_proxy_to (plan : BackendResourceModel) :
    ((plan.externalUrl.IsNull || plan.externalUrl.IsUnknown) = true →
      (backendResourceCreateBuild plan).1.externalUrl = plan.proxyTo.ValueString ∧
      (backendResourceUpdateBuild plan).1.externalUrl = plan.proxyTo.ValueString ∧
      (∀ f m, backendResourceCreate plan f = .ok m →
        m.externalUrl = TfString.StringValue (plan.proxyTo.ValueString)) ∧
      (∀ f m, backendResourceUpdate plan f = .ok m →
        m.externalUrl = TfString.StringValue (plan.proxyTo.ValueString))) ∧
    (∀ s, plan.externalUrl = TfString.value s →
      (backendResourceCreateBuild plan).1.externalUrl = s ∧
      (backendResourceUpdateBuild plan).1.externalUrl = s) := by
  constructor
  · intro h
    refine ⟨(createBuild_defaulted plan h).1, (updateBuild_defaulted plan h).1, ?_, ?_⟩
    · intro f m hm
      rw [backendResourceCreate_ok hm]
      exact (createBuild_defaulted plan h).2
    · intro f m hm
      rw [backendResourceUpdate_ok hm]
      exact (updateBuild_defaulted plan h).2
  · intro s hs
    constructor
    · simp [backendResourceCreateBuild, hs, TfString.IsNull, TfString.IsUnknown,
        TfString.ValueString]
    · simp [backendResourceUpdateBuild, hs, TfString.IsNull, TfString.IsUnknown,
        TfString.ValueString]

/-- The end-to-end plan of the spec's Create scenario: no external_url. -/
def c2Plan : BackendResourceModel :=
  { id := .null
    name := TfString.value (("trino-1").toList)
    proxyTo := TfString.value (("http://localhost:8085").toList)
    active := TfBool.value false
    routingGroup := TfString.value (("some").toList)
    externalUrl := .null }

/-- C2 witness: for that plan the entity sent by Create carries
proxy_to as its externalUrl. -/
theorem c2_witness :
    (backendResourceCreateBuild c2Plan).1.externalUrl = c2Plan.proxyTo.ValueString :=
  ((c2_external_url_defaults_to_proxy_to c2Plan).1 (by decide)).1

/-! ## Claim C3 -/

/-- C3: every non-200 response makes all three operations fail with the
shared message carrying the decimal status code and the body truncated
to at most 1024 bytes; a longer body is truncated, never rejected. -/
theorem c3_non200_is_error_with_truncated_body (response : HttpResponse)
    (h : response.statusCode ≠ 200) :
    addOrUpdateBackendHandle response = .error (badHttpResponseMsg response) ∧
    deleteBackendHandle response = .error (badHttpResponseMsg response) ∧
    getAllBackends response = .error (badHttpResponseMsg response) ∧
    Nat.toDigits 10 response.statusCode <:+: badHttpResponseMsg response ∧
    response.body.take (min response.body.length maxResponseBodyLogSize) <:+:
      badHttpResponseMsg response ∧
    (response.body.take (min response.body.length maxResponseBodyLogSize)).length ≤
      maxResponseBodyLogSize ∧
    response.body.take (min response.body.length maxResponseBodyLogSize) <+:
      response.body := by
  refine ⟨by simp [addOrUpdateBackendHandle, h], by simp [deleteBackendHandle, h],
    by simp [getAllBackends, h], ?_, ?_, ?_, List.take_prefix _ _⟩
  · exact ⟨(("bad http response code: ").toList),
      ((", body: ").toList)
        ++ response.body.take (min response.body.length maxResponseBodyLogSize),
      by simp [badHttpResponseMsg]⟩
  · exact ⟨(("bad http response code: ").toList) ++ Nat.toDigits 10 response.statusCode
        ++ ((", body: ").toList), [],
      by simp [badHttpResponseMsg]⟩
  · simp [List.length_take]

/-- A 404 response whose body is 1025 bytes long. -/
def c3Response : HttpResponse :=
  { statusCode := 404, body := List.replicate 1025 'a' }

/-- C3 witness: at the 404 response with an over-long body the truncated
excerpt stays within 1024 bytes and the operation errors. -/
theorem c3_witness :
    deleteBackendHandle c3Response = .error (badHttpResponseMsg c3Response) ∧
    (c3Response.body.take (min c3Response.body.length maxResponseBodyLogSize)).length ≤
      maxResponseBodyLogSize :=
  ⟨(c3_non200_is_error_with_truncated_body c3Response (by decide)).2.1,
   (c3_non200_is_error_with_truncated_body c3Response (by decide)).2.2.2.2.2.1⟩

/-! ## Claim C6 -/

/-- C6 counterexample: the 200 response body "null" is not a JSON array
of entity objects — it parses as the JSON null literal — yet
GetAllBackends returns the empty list with no decoding error, because
json.Unmarshal leaves the initialized empty slice untouched on null. -/
theorem c6_counterexample_null_body :
    parseJson (("null").toList) = .ok Jval.jnull ∧
    getAllBackends { statusCode := 200, body := (("null").toList) } = .ok [] :=
  ⟨rfl, rfl⟩

/-- C6 amended: whenever the JSON decoder rejects a 200 response body,
GetAllBackends returns an error whose message carries the parse error
and the body truncated to at most 1024 bytes. -/
theorem c6_decode_failure_is_wrapped_error (body msg : Str)
    (h : unmarshalBackends body = .error msg) :
    ∃ wrapped, getAllBackends { statusCode := 200, body := body } = .error wrapped ∧
      msg <:+: wrapped ∧
      body.take (min body.length maxResponseBodyLogSize) <:+: wrapped ∧
      (body.take (min body.length maxResponseBodyLogSize)).length ≤
        maxResponseBodyLogSize := by
  refine ⟨(("cant unmarshal response: ").toList) ++ msg ++ ((", body: ").toList)
      ++ body.take (min body.length maxResponseBodyLogSize), ?_, ?_, ?_, ?_⟩
  · simp [getAllBackends, h]
  · exact ⟨(("cant unmarshal response: ").toList),
      ((", body: ").toList) ++ body.take (min body.length maxResponseBodyLogSize),
      by simp⟩
  · exact ⟨(("cant unmarshal response: ").toList) ++ msg ++ ((", body: ").toList), [],
      by simp⟩
  · simp [List.length_take]

/-- C6 witness: the body "x" is rejected by the decoder and the
operation wraps that error. -/
theorem c6_witness :
    ∃ wrapped,
      getAllBackends { statusCode := 200, body := (("x").toList) } = .error wrapped ∧
      (("invalid character looking for beginning of value").toList) <:+: wrapped ∧
      (("x").toList).take (min (("x").toList).length maxResponseBodyLogSize) <:+:
        wrapped ∧
      ((("x").toList).take (min (("x").toList).length maxResponseBodyLogSize)).length ≤
        maxResponseBodyLogSize :=
  c6_decode_failure_is_wrapped_error (("x").toList)
    (("invalid character looking for beginning of value").toList) (by rfl)

/-! ## Claim C7 -/

/-- C7: the 200 list response with body `[]` decodes to zero backends and
no error. -/
theorem c7_empty_array_is_ok :
    getAllBackends { statusCode := 200, body := (("[]").toList) } = .ok [] := rfl

/-! ## Claim C8 -/

lemma addAuth_fields (tg : trinoGatewayClientHttpImpl) (request : HttpRequest) :
    (addAuth tg request).method = request.method ∧
    (addAuth tg request).url = request.url ∧
    (addAuth tg request).body = request.body := by
  cases htg : tg.auth <;> simp [addAuth, htg]

/-- C8: DeleteBackend builds a POST whose URL is the endpoint (one
trailing slash trimmed) followed by /gateway/backend/modify/delete and
whose body is exactly the raw name; a 404 response yields an error whose
message contains 404. -/
theorem c8_delete_posts_raw_name (tg : trinoGatewayClientHttpImpl)
    (name body : Str) :
    (deleteBackendRequest tg name).method = (("POST").toList) ∧
    (deleteBackendRequest tg name).body = name ∧
    (deleteBackendRequest tg name).url =
      stringsTrimSuffix tg.endpoint (("/").toList)
        ++ (("/gateway/backend/modify/delete").toList) ∧
    ∃ msg, deleteBackendHandle { statusCode := 404, body := body } = .error msg ∧
      (("404").toList) <:+: msg := by
  refine ⟨(addAuth_fields tg _).1, (addAuth_fields tg _).2.2,
    (addAuth_fields tg _).2.1, badHttpResponseMsg { statusCode := 404, body := body },
    by simp [deleteBackendHandle], ?_⟩
  have h404 : (("404").toList) = Nat.toDigits 10 404 := by decide
  rw [h404]
  exact ⟨(("bad http response code: ").toList),
    ((", body: ").toList) ++ body.take (min body.length maxResponseBodyLogSize),
    by simp [badHttpResponseMsg]⟩

/-! ## Claim C9 -/

lemma stringsTrimSuffix_append_singleton (s : Str) (c : Char) :
    stringsTrimSuffix (s ++ [c]) [c] = s := by
  have hb : ([c] : Str).isSuffixOf (s ++ [c]) = true := by
    simp [List.isSuffixOf_iff_suffix]
  simp [stringsTrimSuffix, hb, List.take_left]

lemma stringsTrimSuffix_of_no_suffix (s suffix : Str)
    (h : suffix.isSuffixOf s = false) : stringsTrimSuffix s suffix = s := by
  simp [stringsTrimSuffix, h]

/-- C9: for an endpoint not ending in "/", configuring the client with
the endpoint or with the endpoint plus a trailing "/" yields the same
full URL for every subpath, hence identical requests for all three
operations. -/
theorem c9_trailing_slash_equivalent (auth : Option Auth)
    (endpoint subpath name requestBody : Str)
    (h : ((("/").toList).isSuffixOf endpoint) = false) :
    getFullUrl { endpoint := endpoint ++ (("/").toList), auth := auth } subpath =
      getFullUrl { endpoint := endpoint, auth := auth } subpath ∧
    deleteBackendRequest { endpoint := endpoint ++ (("/").toList), auth := auth } name =
      deleteBackendRequest { endpoint := endpoint, auth := auth } name ∧
    addOrUpdateBackendRequest { endpoint := endpoint ++ (("/").toList), auth := auth }
        requestBody =
      addOrUpdateBackendRequest { endpoint := endpoint, auth := auth } requestBody ∧
    getAllBackendsRequest { endpoint := endpoint ++ (("/").toList), auth := auth } =
      getAllBackendsRequest { endpoint := endpoint, auth := auth } := by
  have hurl : ∀ sp : Str,
      getFullUrl { endpoint := endpoint ++ ['/'], auth := auth } sp =
        getFullUrl { endpoint := endpoint, auth := auth } sp := by
    intro sp
    show stringsTrimSuffix (endpoint ++ ['/']) (("/").toList) ++ sp =
      stringsTrimSuffix endpoint (("/").toList) ++ sp
    rw [show (("/").toList : Str) = ['/'] from rfl] at h ⊢
    rw [stringsTrimSuffix_append_singleton, stringsTrimSuffix_of_no_suffix _ _ h]
  refine ⟨hurl subpath, ?_, ?_, ?_⟩ <;>
    cases auth <;>
      simp [deleteBackendRequest, addOrUpdateBackendRequest, getAllBackendsRequest,
        addAuth, hurl]

/-- C9 witness: the delete URL is the same whether the endpoint is
configured with or without the trailing slash. -/
theorem c9_witness :
    getFullUrl { endpoint := (("http://trino:8080/").toList), auth := none }
        (("/gateway/backend/modify/delete").toList) =
      getFullUrl { endpoint := (("http://trino:8080").toList), auth := none }
        (("/gateway/backend/modify/delete").toList) :=
  (c9_trailing_slash_equivalent none (("http://trino:8080").toList)
    (("/gateway/backend/modify/delete").toList) [] [] (by decide)).1

/-! ## Claim C10 -/

/-- C10: a configuration with a null endpoint aside, a set password with
a null login raises no diagnostic: the client is built with no
credentials, and with no credentials configured the request is sent with
no basic-auth header; an auth diagnostic arises exactly when login is
set and password is null. -/
theorem c10_lone_password_ignored (data : TrinoGatewayProviderModel)
    (hend : data.endpoint.IsNull = false)
    (hlogin : data.login.IsNull = true)
    (hpass : data.password.IsNull = false) :
    providerConfigure data = .ok { endpoint := data.endpoint.ValueString, auth := none } ∧
    (∀ request, addAuth { endpoint := data.endpoint.ValueString, auth := none } request =
      request) ∧
    (∀ d : TrinoGatewayProviderModel, d.endpoint.IsNull = false →
      ((∃ diag, providerConfigure d = .error diag) ↔
        (d.login.IsNull = false ∧ d.password.IsNull = true))) := by
  refine ⟨by simp [providerConfigure, hend, hlogin], fun request => rfl, ?_⟩
  intro d hd
  constructor
  · rintro ⟨diag, hdiag⟩
    cases hl : d.login.IsNull with
    | true => simp [providerConfigure, hd, hl] at hdiag
    | false =>
      cases hp : d.password.IsNull with
      | true => exact ⟨rfl, rfl⟩
      | false => simp [providerConfigure, hd, hl, hp] at hdiag
  · rintro ⟨hl, hp⟩
    exact ⟨((("Cant configure trino gateway client auth").toList),
        (("Cant configure trino gateway client auth: if login set, password should be set too").toList)),
      by simp [providerConfigure, hd, hl, hp]⟩

/-- A configuration with endpoint and password set, login absent. -/
def c10Config : TrinoGatewayProviderModel :=
  { endpoint := TfString.value (("http://127.0.0.1:18080").toList)
    login := .null
    password := TfString.value (("admin").toList) }

/-- C10 witness: that configuration yields a client with no auth. -/
theorem c10_witness :
    providerConfigure c10Config =
      .ok { endpoint := c10Config.endpoint.ValueString, auth := none } :=
  (c10_lone_password_ignored c10Config (by decide) (by decide) (by decide)).1
